import Mathlib

/-!
Shallow embedding of `tmuxp/window.py` (class `Window`).

Each `Window` method that shells out to tmux is modelled as a pure function of
the window's state and of the `ProcOutput` (stdout/stderr line lists) that the
spawned subprocess would return.  A method returns the list of subprocess
invocations it performs (its trace) together with an `Except PyErr` result;
`Except.error` models a Python exception escaping the method.

The repository ships only `window.py`; the helper modules it imports
(`util`, `formats`, `pane`, the server object) are modelled from the spec
where a claim needs them, as noted on the individual definitions.
-/

namespace Tmuxp

/-- Python `s.split(sep)` with a one-character separator, on the character
list: consecutive separators yield empty fields and the empty list yields one
empty field, exactly as in Python. -/
def pySplitList (c : Char) : List Char → List (List Char)
  | [] => [[]]
  | x :: xs =>
    let r := pySplitList c xs
    if x = c then [] :: r
    else
      match r with
      | [] => [[x]]
      | y :: ys => (x :: y) :: ys

/-- Python `s.split(sep)` with a one-character separator. -/
def pySplit (s : String) (c : Char) : List String :=
  (pySplitList c s.toList).map (fun l => String.mk l)

/-- Python `str.isdigit`: true iff the string is nonempty and every character
is a digit (restricted to ASCII digits here). -/
def pyIsDigit (s : String) : Bool :=
  !s.isEmpty && s.toList.all Char.isDigit

/-- Python `int(...)` applied to a string of digits. -/
def strToNat (s : String) : Nat :=
  s.toList.foldl (fun n c => 10 * n + (c.toNat - 48)) 0

/-- A Python value that can appear in a parsed-options dict: a string or an
int produced by coercing a digit string. -/
inductive PyVal where
  | str (s : String)
  | int (n : Nat)
deriving DecidableEq, Repr

/-- A value handed to the tmux subprocess as an argument.  `set_window_option`
accepts strings, ints and bools. -/
inductive TmuxVal where
  | str (s : String)
  | int (n : Int)
  | bool (b : Bool)
deriving DecidableEq, Repr

/-- The Python exceptions the `Window` methods can raise. -/
inductive PyErr where
  | valueError (msg : String)
  | exception (stderr : List String)
  | indexError
  | keyError
deriving DecidableEq, Repr

/-- stdout/stderr of a finished subprocess, as lists of lines (the shape
`server.tmux` hands back to `window.py`). -/
structure ProcOutput where
  stdout : List String
  stderr : List String
deriving DecidableEq, Repr

/-- One subprocess spawn.  `tmux args` is a direct `self.tmux(*args)` call;
`updateWindows` / `updatePanes` are the server cache refreshes
(`server._update_windows()` / `server._update_panes()`).
Modelled from the spec: the server's state "lives entirely inside the external
tmux server process, reached only through spawning subprocesses", so each
refresh is one subprocess invocation. -/
inductive Invocation where
  | tmux (args : List TmuxVal)
  | updateWindows
  | updatePanes
deriving DecidableEq, Repr

/-- First-match association lookup; Python `d[k]` / `d.get(k)` on a dict,
returning `none` when the key is absent. -/
def assoc (k : String) : List (String × α) → Option α
  | [] => none
  | (k', v) :: rest => if k' = k then some v else assoc k rest

/-- Python `d[k] = v` on a dict kept as an insertion-ordered association
list: an existing key keeps its position and gets the new value, a new key is
appended. -/
def pyInsert (d : List (String × α)) (k : String) (v : α) : List (String × α) :=
  if d.any (fun p => p.1 = k) then
    d.map (fun p => if p.1 = k then (k, v) else p)
  else
    d ++ [(k, v)]

/-- Python `dict(pairs)`: fold the pairs into an empty dict in order. -/
def pyDictOfPairs (ps : List (String × α)) : List (String × α) :=
  ps.foldl (fun d p => pyInsert d p.1 p.2) []

/-- `%s`-formatting of a value that may be Python `None`. -/
def pyStr : Option String → String
  | some s => s
  | none => "None"

/-- Python `repr` of a list of strings, as `'%s' % stderr` renders it when
`stderr` is a list of more than one line. -/
def pyListRepr (ss : List String) : String :=
  "[" ++ String.intercalate ", " (ss.map (fun s => "'" ++ s ++ "'")) ++ "]"

/-- The string interpolated into the `set-window-option` error message:
a one-element stderr list is unwrapped to its line, anything else is
`%s`-formatted as the list itself (`window.py` lines 139-143). -/
def fmtStderr (ss : List String) : String :=
  if ss.length = 1 then ss.headD "" else pyListRepr ss

/-- A row of key/value pairs parsed from tmux format-string output. -/
abbrev Row := List (String × String)

/-- Modelled from the spec: the server object (`server.py` is not under
`src/`) holds cached lists of window rows and pane rows, each row "a row of
key/value pairs retrieved via tmux format string queries". -/
structure ServerState where
  windows : List Row
  panes : List Row
deriving DecidableEq, Repr

/-- Modelled from the spec: a session "wraps a session identity" — its server
and its own parsed row; `session.get(k)` reads the row. -/
structure SessionState where
  server : ServerState
  row : Row
deriving DecidableEq, Repr

/-- The state a constructed `Window` carries: its session, its server and the
`window_id` stored by `__init__`. -/
structure WindowState where
  session : SessionState
  server : ServerState
  window_id : String
deriving DecidableEq, Repr

/-- Modelled from the spec: a pane object wraps the parsed row it was built
from (`Pane(window=self, **pane)`); `pane.py` is not under `src/`. -/
structure Pane where
  attrs : Row
deriving DecidableEq, Repr

/-- `SessionState.get`: Modelled from the spec: `session.get(k)` returns the
value of `k` in the session's row, `None` when absent. -/
def SessionState.get (s : SessionState) (k : String) : Option String :=
  assoc k s.row

/-- `Window._TMUX` (`window.py` lines 54-71): the first row of
`server._windows` whose `window_id` equals the stored `_window_id`. -/
def WindowState.TMUX (w : WindowState) : Option Row :=
  (w.server.windows.filter (fun r => assoc "window_id" r = some w.window_id)).head?

/-- Modelled from the spec: `util.TmuxMappingObject.get` (not under `src/`)
reads the object's `_TMUX` row, returning `None` for a missing key. -/
def WindowState.get (w : WindowState) (k : String) : Option String :=
  match w.TMUX with
  | some row => assoc k row
  | none => none

/-- Modelled from the spec: `self[k]` on the mapping object raises (`KeyError`)
when the key is absent from the object's row. -/
def WindowState.getitem (w : WindowState) (k : String) : Except PyErr String :=
  match w.get k with
  | some v => Except.ok v
  | none => Except.error PyErr.keyError

/-- `Window.target` (`window.py` lines 112-114):
`"%s:%s" % (self.session.get('session_id'), self.get('window_id'))`. -/
def WindowState.target (w : WindowState) : String :=
  pyStr (w.session.get "session_id") ++ ":" ++ pyStr (w.get "window_id")

/-- `Window.__init__` (`window.py` lines 30-41): raise `ValueError` on a falsy
session (a constructed session object is always truthy, so falsy = `None`),
then on missing `window_id` in the keyword arguments; otherwise store the
session, its server and the `window_id`. -/
def Window.init (session : Option SessionState) (kwargs : Row) :
    Except PyErr WindowState :=
  match session with
  | none => Except.error (PyErr.valueError "Window requires a Session, session=Session")
  | some s =>
    match assoc "window_id" kwargs with
    | none => Except.error (PyErr.valueError "Window requires a `window_id`")
    | some wid => Except.ok ⟨s, s.server, wid⟩

/-- `Window.select_layout` (`window.py` lines 78-110): one tmux call, the
subprocess result is never inspected. -/
def Window.select_layout (w : WindowState) (layout : String) (_out : ProcOutput) :
    List Invocation × Except PyErr Unit :=
  ([Invocation.tmux [TmuxVal.str "select-layout",
                     TmuxVal.str ("-t" ++ w.target),
                     TmuxVal.str layout]],
   Except.ok ())

/-- `Window.set_window_option` (`window.py` lines 116-143): bools become
`'on'`/`'off'`, the target is `self['window_id']`, and a non-empty stderr
raises `ValueError` with the message built by `fmtStderr`. -/
def Window.set_window_option (w : WindowState) (option : String) (value : TmuxVal)
    (out : ProcOutput) : List Invocation × Except PyErr Unit :=
  let value' : TmuxVal :=
    match value with
    | TmuxVal.bool true => TmuxVal.str "on"
    | TmuxVal.bool false => TmuxVal.str "off"
    | v => v
  match w.getitem "window_id" with
  | Except.error e => ([], Except.error e)
  | Except.ok wid =>
    let inv := Invocation.tmux [TmuxVal.str "set-window-option",
                                TmuxVal.str ("-t" ++ wid),
                                TmuxVal.str option, value']
    match out.stderr with
    | [] => ([inv], Except.ok ())
    | _ :: _ =>
      ([inv],
       Except.error (PyErr.valueError
         ("tmux set-window-option stderr: " ++ fmtStderr out.stderr)))

/-- Python `value.isdigit()` coercion applied to a dict value
(`window.py` lines 168-170 and 195-196). -/
def coerceDigits (v : String) : PyVal :=
  if pyIsDigit v then PyVal.int (strToNat v) else PyVal.str v

/-- Python `dict(tuples)` over a list of split lines: fails (raises
`ValueError`) at the first element that is not a pair
(`window.py` line 166). -/
def dictOfTuplesAux (acc : Row) : List (List String) → Option Row
  | [] => some acc
  | t :: rest =>
    match t with
    | [k, v] => dictOfTuplesAux (pyInsert acc k v) rest
    | _ => none

/-- `dict([tuple(item.split(' ')) for item in lines])`. -/
def dictOfTuples (ts : List (List String)) : Option Row :=
  dictOfTuplesAux [] ts

/-- The stdout parser of `Window.show_window_options` with no option argument
(`window.py` lines 160-172): split each line on `' '`, build a dict, coerce
digit values to ints. -/
def showWindowOptionsParse (stdout : List String) :
    Except PyErr (List (String × PyVal)) :=
  match dictOfTuples (stdout.map (fun item => pySplit item ' ')) with
  | none => Except.error (PyErr.valueError "dictionary update sequence element is not a pair")
  | some d => Except.ok (d.map (fun kv => (kv.1, coerceDigits kv.2)))

/-- `Window.show_window_option` (`window.py` lines 174-198): empty stdout
returns `None`; otherwise the first line is split on `' '` and field 1 is
returned, coerced to an int when it is all digits; a one-field line raises
`IndexError`.  The stderr of the subprocess is never inspected. -/
def Window.show_window_option (w : WindowState) (option : String)
    (out : ProcOutput) : List Invocation × Except PyErr (Option PyVal) :=
  let _ := w
  ([Invocation.tmux [TmuxVal.str "show-window-options", TmuxVal.str option]],
   match out.stdout with
   | [] => Except.ok none
   | line :: _ =>
     let t := pySplit line ' '
     match t.get? 1 with
     | none => Except.error PyErr.indexError
     | some v => Except.ok (some (coerceDigits v)))

/-- Result of `Window.show_window_options`: a dict when called with no (or a
falsy) option, the forwarded single value otherwise. -/
inductive ShowOptsResult where
  | dict (d : List (String × PyVal))
  | single (v : Option PyVal)
deriving DecidableEq, Repr

/-- `Window.show_window_options` (`window.py` lines 145-172): a truthy option
forwards to `show_window_option`; otherwise one `show-window-options` call and
the dict parse.  The stderr of the subprocess is never inspected. -/
def Window.show_window_options (w : WindowState) (option : Option String)
    (out : ProcOutput) : List Invocation × Except PyErr ShowOptsResult :=
  let allBranch : List Invocation × Except PyErr ShowOptsResult :=
    ([Invocation.tmux [TmuxVal.str "show-window-options"]],
     (showWindowOptionsParse out.stdout).map ShowOptsResult.dict)
  match option with
  | none => allBranch
  | some o =>
    if o.isEmpty then allBranch
    else
      ((Window.show_window_option w o out).1,
       (Window.show_window_option w o out).2.map ShowOptsResult.single)

/-- `Window.rename_window` (`window.py` lines 200-228): the tmux call sits in
a `try` whose `except` only logs, the subprocess result is never inspected,
then `server._update_windows()` runs and `self` is returned.  Modelled from
the spec for the refresh: it re-reads external server state and is recorded in
the trace; the returned object is the same window identity. -/
def Window.rename_window (w : WindowState) (new_name : String)
    (_out : ProcOutput) : List Invocation × Except PyErr WindowState :=
  ([Invocation.tmux [TmuxVal.str "rename-window",
                     TmuxVal.str ("-t" ++ w.target),
                     TmuxVal.str new_name],
    Invocation.updateWindows],
   Except.ok w)

/-- The list-comprehension filter of `_list_panes`: keep the rows whose value
at `k` equals `target`; a row without the key raises `KeyError`
(`window.py` lines 330-335). -/
def filterByKey (k : String) (target : Option String) :
    List Row → Except PyErr (List Row)
  | [] => Except.ok []
  | p :: rest =>
    match assoc k p with
    | none => Except.error PyErr.keyError
    | some v =>
      match filterByKey k target rest with
      | Except.error e => Except.error e
      | Except.ok r => Except.ok (if some v = target then p :: r else r)

/-- `Window._list_panes` (`window.py` lines 327-336): refresh the server's
pane cache (one subprocess), then filter by `session_id`, then by
`window_id`. -/
def Window.listPanesRows (w : WindowState) :
    List Invocation × Except PyErr (List Row) :=
  ([Invocation.updatePanes],
   match filterByKey "session_id" (w.get "session_id") w.server.panes with
   | Except.error e => Except.error e
   | Except.ok a => filterByKey "window_id" (w.get "window_id") a)

/-- `Window.list_panes` (`window.py` lines 342-348): each filtered row wrapped
as a `Pane`. -/
def Window.list_panes (w : WindowState) :
    List Invocation × Except PyErr (List Pane) :=
  ((Window.listPanesRows w).1,
   (Window.listPanesRows w).2.map (fun panes => panes.map Pane.mk))

/-- `Window.attached_pane` (`window.py` lines 312-325): the first pane of
`self._panes` whose `pane_active` is `'1'`, `None` when there is none. -/
def Window.attached_pane (w : WindowState) :
    List Invocation × Except PyErr (Option Pane) :=
  ((Window.listPanesRows w).1,
   (Window.listPanesRows w).2.map (fun panes =>
    (panes.find? (fun p => assoc "pane_active" p = some "1")).map Pane.mk))

/-- `Window.select_pane` (`window.py` lines 230-248): one `select-pane` call;
non-empty stderr raises `Exception(proc.stderr)`, otherwise
`attached_pane()` runs (a second subprocess) and its result is returned. -/
def Window.select_pane (w : WindowState) (target_pane : String)
    (out : ProcOutput) : List Invocation × Except PyErr (Option Pane) :=
  let inv := Invocation.tmux [TmuxVal.str "select-pane",
                              TmuxVal.str ("-t" ++ target_pane)]
  match out.stderr with
  | [] => (inv :: (Window.attached_pane w).1, (Window.attached_pane w).2)
  | _ :: _ => ([inv], Except.error (PyErr.exception out.stderr))

/-- `Window.split_window` (`window.py` lines 250-310).  `PANE_FORMATS` comes
from the `formats` module, which is not under `src/`; it is taken as a
parameter.  `self.panes[0]` refreshes the pane cache (one subprocess) and
raises `IndexError` when the window has no panes; then the `split-window`
call runs; non-empty stderr raises `Exception(pane.stderr)`; otherwise the
first stdout line is split on tabs, zipped with the format names, emptied
values dropped, and the dict wrapped as a `Pane`. -/
def Window.split_window (w : WindowState) (PANE_FORMATS : List String)
    (attach : Bool) (out : ProcOutput) : List Invocation × Except PyErr Pane :=
  let tr0 := (Window.list_panes w).1
  match (Window.list_panes w).2 with
  | Except.error e => (tr0, Except.error e)
  | Except.ok panes =>
    match panes with
    | [] => (tr0, Except.error PyErr.indexError)
    | p0 :: _ =>
      let pformats := ["session_name", "session_id", "window_index", "window_id"]
        ++ PANE_FORMATS
      let tmux_formats := pformats.map (fun f => "#\x7b" ++ f ++ "\x7d\t")
      let baseArgs : List TmuxVal :=
        [TmuxVal.str ("-t" ++ pyStr (assoc "pane_id" p0.attrs)),
         TmuxVal.str "-P",
         TmuxVal.str ("-F" ++ String.join tmux_formats)]
      let tmux_args := if attach then baseArgs else baseArgs ++ [TmuxVal.str "-d"]
      let inv := Invocation.tmux (TmuxVal.str "split-window" :: tmux_args)
      let tr := tr0 ++ [inv]
      match out.stderr with
      | _ :: _ => (tr, Except.error (PyErr.exception out.stderr))
      | [] =>
        match out.stdout with
        | [] => (tr, Except.error PyErr.indexError)
        | line :: _ =>
          let vals := pySplit line '\t'
          let d := pyDictOfPairs (List.zip pformats vals)
          (tr, Except.ok ⟨d.filter (fun kv => kv.2 != "")⟩)

/-- Claim-side reading of one `show-window-options` stdout line: the
(name, value) pair obtained by splitting the line on a space. -/
def splitPair (line : String) : String × String :=
  match pySplit line ' ' with
  | [k, v] => (k, v)
  | _ => ("", "")

/-- A concrete window row, for witnesses and counterexamples. -/
def row0 : Row := [("window_id", "@1"), ("session_id", "$1"), ("window_name", "w")]

/-- A concrete pane row belonging to `w0`. -/
def paneRow0 : Row :=
  [("pane_id", "%0"), ("session_id", "$1"), ("window_id", "@1"), ("pane_active", "1")]

/-- A concrete pane row of a different window. -/
def paneRow1 : Row := [("pane_id", "%1"), ("session_id", "$1"), ("window_id", "@2")]

/-- A concrete server state. -/
def server0 : ServerState := ⟨[row0], [paneRow0, paneRow1]⟩

/-- A concrete session on `server0`. -/
def session0 : SessionState := ⟨server0, [("session_id", "$1")]⟩

/-- A concrete window on `session0`. -/
def w0 : WindowState := ⟨session0, server0, "@1"⟩

/-! ## Theorems -/

/-- With no (falsy) option, `show_window_options` is one `show-window-options`
call followed by the stdout parse. -/
theorem show_window_options_none_eq (w : WindowState) (out : ProcOutput) :
    Window.show_window_options w none out =
      ([Invocation.tmux [TmuxVal.str "show-window-options"]],
       (showWindowOptionsParse out.stdout).map ShowOptsResult.dict) := rfl

/-- When every line splits into exactly two fields, `dict(...)` succeeds and
equals the fold of `pyInsert` over the claim-side pairs. -/
theorem dictOfTuplesAux_map_split (ls : List String) :
    ∀ acc : Row,
      (∀ l ∈ ls, (pySplit l ' ').length = 2) →
      dictOfTuplesAux acc (ls.map (fun item => pySplit item ' ')) =
        some (List.foldl (fun d p => pyInsert d p.1 p.2) acc (ls.map splitPair)) := by
  induction ls with
  | nil => intro acc _; rfl
  | cons l ls ih =>
    intro acc h
    have h2 : (pySplit l ' ').length = 2 := h l (List.mem_cons_self _ _)
    rcases e : pySplit l ' ' with _ | ⟨k, tl⟩
    · rw [e] at h2; simp at h2
    rcases tl with _ | ⟨v, tl2⟩
    · rw [e] at h2; simp at h2
    rcases tl2 with _ | ⟨x, tl3⟩
    · have hsp : splitPair l = (k, v) := by simp [splitPair, e]
      simp only [List.map_cons, e, dictOfTuplesAux, List.foldl_cons, hsp]
      exact ih _ (fun y hy => h y (List.mem_cons_of_mem _ hy))
    · rw [e] at h2; simp at h2

/-- If `dict(...)` succeeded, every tuple it consumed was a pair. -/
theorem dictOfTuplesAux_ok_lengths (ts : List (List String)) :
    ∀ acc d, dictOfTuplesAux acc ts = some d → ∀ t ∈ ts, t.length = 2 := by
  induction ts with
  | nil =>
    intro acc d _ t ht
    simp at ht
  | cons t0 ts ih =>
    intro acc d hok t ht
    rcases t0 with _ | ⟨k, _ | ⟨v, _ | ⟨x, tl⟩⟩⟩
    · simp [dictOfTuplesAux] at hok
    · simp [dictOfTuplesAux] at hok
    · rcases List.mem_cons.mp ht with rfl | hmem
      · rfl
      · exact ih _ _ hok t hmem
    · simp [dictOfTuplesAux] at hok

/-- A tuple that is not a pair makes `dict(...)` fail. -/
theorem dictOfTuplesAux_none_of_bad (ts : List (List String)) (t : List String)
    (ht : t ∈ ts) (hlen : t.length ≠ 2) :
    ∀ acc, dictOfTuplesAux acc ts = none := by
  intro acc
  cases e : dictOfTuplesAux acc ts with
  | none => rfl
  | some d => exact absurd (dictOfTuplesAux_ok_lengths ts acc d e t ht) hlen

/-- C1: with no option argument, `Window.show_window_options` splits each
stdout line on whitespace into a (name, value) pair, builds a dict from those
pairs, and replaces every all-digit value by its integer value; the result is
exactly that dict.  (Stated for stdout whose lines are well-formed pairs; C10
settles the ill-formed lines.) -/
theorem show_window_options_builds_dict (w : WindowState) (out : ProcOutput)
    (h : ∀ line ∈ out.stdout, (pySplit line ' ').length = 2) :
    (Window.show_window_options w none out).2 =
      Except.ok (ShowOptsResult.dict
        ((pyDictOfPairs (out.stdout.map splitPair)).map
          (fun kv => (kv.1, coerceDigits kv.2)))) := by
  have e := dictOfTuplesAux_map_split out.stdout [] h
  simp [show_window_options_none_eq, showWindowOptionsParse, dictOfTuples, e,
    pyDictOfPairs, Except.map]

/-- Witness for C1 at a concrete stdout. -/
theorem show_window_options_builds_dict_w :
    (Window.show_window_options w0 none ⟨["a off", "b 2"], []⟩).2 =
      Except.ok (ShowOptsResult.dict [("a", PyVal.str "off"), ("b", PyVal.int 2)]) := by
  have h := show_window_options_builds_dict w0 ⟨["a off", "b 2"], []⟩ (by
    intro l hl
    rcases List.mem_cons.mp hl with rfl | hl2
    · rfl
    · rcases List.mem_cons.mp hl2 with rfl | hl3
      · rfl
      · simp at hl3)
  rw [h]; rfl

/-- C10: with no option argument, `show_window_options` fails whenever a
stdout line splits into more than two space-separated fields, and it returns
normally only when every line splits into exactly two fields. -/
theorem show_window_options_requires_pairs (w : WindowState) (out : ProcOutput) :
    ((∃ line ∈ out.stdout, 2 < (pySplit line ' ').length) →
       (Window.show_window_options w none out).2 =
         Except.error (PyErr.valueError "dictionary update sequence element is not a pair")) ∧
    (∀ r, (Window.show_window_options w none out).2 = Except.ok r →
       ∀ line ∈ out.stdout, (pySplit line ' ').length = 2) := by
  constructor
  · rintro ⟨line, hline, hlen⟩
    have hnone :=
      dictOfTuplesAux_none_of_bad
        (out.stdout.map (fun item => pySplit item ' '))
        (pySplit line ' ')
        (List.mem_map_of_mem _ hline) (by omega) []
    simp [show_window_options_none_eq, showWindowOptionsParse, dictOfTuples, hnone,
      Except.map]
  · intro r hr line hline
    cases e : dictOfTuples (out.stdout.map (fun item => pySplit item ' ')) with
    | none =>
      rw [show_window_options_none_eq] at hr
      simp [showWindowOptionsParse, e, Except.map] at hr
    | some d =>
      exact dictOfTuplesAux_ok_lengths _ [] d e _ (List.mem_map_of_mem _ hline)

/-- Witness for C10 at a concrete three-field line. -/
theorem show_window_options_requires_pairs_w :
    (Window.show_window_options w0 none ⟨["a b c"], []⟩).2 =
      Except.error (PyErr.valueError "dictionary update sequence element is not a pair") := by
  exact (show_window_options_requires_pairs w0 ⟨["a b c"], []⟩).1
    ⟨"a b c", List.mem_singleton.mpr rfl, by decide⟩

/-- C5: `Window.show_window_option` returns `None` on empty stdout; otherwise
it splits the first stdout line on whitespace into (name, value) and returns
the value, coerced to an integer exactly when it is all digits. -/
theorem show_window_option_spec (w : WindowState) (option : String) (out : ProcOutput) :
    (out.stdout = [] → (Window.show_window_option w option out).2 = Except.ok none) ∧
    (∀ line rest n v, out.stdout = line :: rest →
       pySplit line ' ' = [n, v] →
       (Window.show_window_option w option out).2 =
         Except.ok (some (if pyIsDigit v then PyVal.int (strToNat v) else PyVal.str v))) := by
  constructor
  · intro h
    simp [Window.show_window_option, h]
  · intro line rest n v h hs
    simp [Window.show_window_option, h, hs, coerceDigits]

/-- Witness for C5: an all-digit value comes back as an int. -/
theorem show_window_option_spec_w :
    (Window.show_window_option w0 "o" ⟨["n 5"], []⟩).2 =
      Except.ok (some (PyVal.int 5)) := by
  have h := (show_window_option_spec w0 "o" ⟨["n 5"], []⟩).2 "n 5" [] "n" "5" rfl (by rfl)
  rw [h]; rfl

/-- C6: `Window.select_layout` invokes tmux with exactly
`['select-layout', '-t' ++ session_id ++ ':' ++ window_id, layout]`. -/
theorem select_layout_args (w : WindowState) (layout : String) (out : ProcOutput)
    (sid wid : String)
    (h1 : w.session.get "session_id" = some sid)
    (h2 : w.get "window_id" = some wid) :
    (Window.select_layout w layout out).1 =
      [Invocation.tmux [TmuxVal.str "select-layout",
                        TmuxVal.str ("-t" ++ sid ++ ":" ++ wid),
                        TmuxVal.str layout]] := by
  simp [Window.select_layout, WindowState.target, h1, h2, pyStr, String.append_assoc]

/-- Witness for C6 on the concrete window `w0`. -/
theorem select_layout_args_w :
    (Window.select_layout w0 "tiled" ⟨[], []⟩).1 =
      [Invocation.tmux [TmuxVal.str "select-layout",
                        TmuxVal.str "-t$1:@1",
                        TmuxVal.str "tiled"]] := by
  have h := select_layout_args w0 "tiled" ⟨[], []⟩ "$1" "@1" rfl rfl
  exact h

/-- C8: `Window.__init__` raises `ValueError` iff the session is falsy or the
keyword arguments lack `window_id`; on success the stored window id is the
`window_id` keyword argument and the server is the session's server. -/
theorem window_init_spec (session : Option SessionState) (kwargs : Row) :
    ((∃ msg, Window.init session kwargs = Except.error (PyErr.valueError msg)) ↔
       session = none ∨ assoc "window_id" kwargs = none) ∧
    (∀ s w, session = some s → Window.init session kwargs = Except.ok w →
       assoc "window_id" kwargs = some w.window_id ∧ w.server = s.server) := by
  constructor
  · cases session with
    | none => simp [Window.init]
    | some s =>
      cases e : assoc "window_id" kwargs with
      | none => simp [Window.init, e]
      | some wid => simp [Window.init, e]
  · intro s w hs hw
    subst hs
    cases e : assoc "window_id" kwargs with
    | none => simp [Window.init, e] at hw
    | some wid =>
      simp only [Window.init, e] at hw
      injection hw with hw2
      rw [← hw2]
      exact ⟨rfl, rfl⟩

/-- Witness for C8 on a concrete construction. -/
theorem window_init_spec_w :
    assoc "window_id" [("window_id", "@9")] =
        some (WindowState.mk session0 server0 "@9").window_id ∧
      (WindowState.mk session0 server0 "@9").server = session0.server := by
  exact (window_init_spec (some session0) [("window_id", "@9")]).2
    session0 ⟨session0, server0, "@9"⟩ rfl rfl

/-- C9: `Window.set_window_option` passes `'on'` for `True`, `'off'` for
`False`, and any non-boolean value through unchanged. -/
theorem set_window_option_coerces_bools (w : WindowState) (option : String)
    (out : ProcOutput) (wid : String) (h : w.get "window_id" = some wid) :
    ((Window.set_window_option w option (TmuxVal.bool true) out).1 =
       [Invocation.tmux [TmuxVal.str "set-window-option", TmuxVal.str ("-t" ++ wid),
                         TmuxVal.str option, TmuxVal.str "on"]]) ∧
    ((Window.set_window_option w option (TmuxVal.bool false) out).1 =
       [Invocation.tmux [TmuxVal.str "set-window-option", TmuxVal.str ("-t" ++ wid),
                         TmuxVal.str option, TmuxVal.str "off"]]) ∧
    (∀ s, (Window.set_window_option w option (TmuxVal.str s) out).1 =
       [Invocation.tmux [TmuxVal.str "set-window-option", TmuxVal.str ("-t" ++ wid),
                         TmuxVal.str option, TmuxVal.str s]]) ∧
    (∀ n, (Window.set_window_option w option (TmuxVal.int n) out).1 =
       [Invocation.tmux [TmuxVal.str "set-window-option", TmuxVal.str ("-t" ++ wid),
                         TmuxVal.str option, TmuxVal.int n]]) := by
  refine ⟨?_, ?_, ?_, ?_⟩ <;> (try intro x) <;>
    cases hs : out.stderr <;>
      simp [Window.set_window_option, WindowState.getitem, h, hs]

/-- Witness for C9: `True` becomes `'on'` on the concrete window `w0`. -/
theorem set_window_option_coerces_bools_w :
    (Window.set_window_option w0 "automatic-rename" (TmuxVal.bool true) ⟨[], []⟩).1 =
      [Invocation.tmux [TmuxVal.str "set-window-option", TmuxVal.str ("-t" ++ "@1"),
                        TmuxVal.str "automatic-rename", TmuxVal.str "on"]] := by
  exact (set_window_option_coerces_bools w0 "automatic-rename" ⟨[], []⟩ "@1" rfl).1

/-- When every row has key `k`, the comprehension filter succeeds and keeps
exactly the rows whose value at `k` equals the target. -/
theorem filterByKey_ok (k : String) (t : Option String) :
    ∀ ps : List Row, (∀ p ∈ ps, (assoc k p).isSome) →
      filterByKey k t ps = Except.ok (ps.filter (fun p => decide (assoc k p = t))) := by
  intro ps
  induction ps with
  | nil => intro _; rfl
  | cons p ps ih =>
    intro h
    have hp : (assoc k p).isSome := h p (List.mem_cons_self _ _)
    cases e : assoc k p with
    | none => rw [e] at hp; simp at hp
    | some v =>
      have ihh := ih (fun q hq => h q (List.mem_cons_of_mem _ hq))
      by_cases ht : some v = t
      · subst ht
        simp [filterByKey, e, ihh, List.filter_cons]
      · simp [filterByKey, e, ihh, ht, List.filter_cons]

/-- C4: `Window.list_panes` refreshes the pane cache once and returns, in
server order, exactly the panes whose `session_id` and `window_id` match this
window's, each wrapped as a `Pane`. -/
theorem list_panes_filters (w : WindowState)
    (h : ∀ p ∈ w.server.panes,
      (assoc "session_id" p).isSome ∧ (assoc "window_id" p).isSome) :
    Window.list_panes w =
      ([Invocation.updatePanes],
       Except.ok ((w.server.panes.filter (fun p =>
         decide (assoc "session_id" p = w.get "session_id") &&
         decide (assoc "window_id" p = w.get "window_id"))).map Pane.mk)) := by
  have h1 := filterByKey_ok "session_id" (w.get "session_id") w.server.panes
    (fun p hp => (h p hp).1)
  have h2 := filterByKey_ok "window_id" (w.get "window_id")
    (w.server.panes.filter (fun p => decide (assoc "session_id" p = w.get "session_id")))
    (fun p hp => (h p (List.mem_of_mem_filter hp)).2)
  have hcomm : (w.server.panes.filter (fun p => decide (assoc "session_id" p = w.get "session_id"))).filter
        (fun p => decide (assoc "window_id" p = w.get "window_id")) =
      w.server.panes.filter (fun p =>
        decide (assoc "session_id" p = w.get "session_id") &&
        decide (assoc "window_id" p = w.get "window_id")) := by
    rw [List.filter_filter]
    exact List.filter_congr (fun a _ => Bool.and_comm _ _)
  simp [Window.list_panes, Window.listPanesRows, h1, h2, hcomm, Except.map]

/-- Witness for C4 on the concrete server: only the pane of window `@1`
survives the filter. -/
theorem list_panes_filters_w :
    Window.list_panes w0 =
      ([Invocation.updatePanes], Except.ok [Pane.mk paneRow0]) := by
  have h := list_panes_filters w0 (by decide)
  rw [h]; rfl

/-- The keys of a positional zip form a sublist of the format-name list. -/
theorem map_fst_zip_sublist :
    ∀ (ks : List String) (vs : List String),
      ((List.zip ks vs).map Prod.fst).Sublist ks := by
  intro ks
  induction ks with
  | nil => intro vs; simp
  | cons k ks ih =>
    intro vs
    cases vs with
    | nil => simp
    | cons v vs => simpa using (ih vs).cons₂ k

/-- Folding Python dict insertion over pairs with pairwise-distinct keys is
the identity: no pair is overwritten. -/
theorem foldl_pyInsert_nodup :
    ∀ (l acc : List (String × String)),
      ((acc ++ l).map Prod.fst).Nodup →
      List.foldl (fun d p => pyInsert d p.1 p.2) acc l = acc ++ l := by
  intro l
  induction l with
  | nil => intro acc _; simp
  | cons p l ih =>
    intro acc h
    rw [List.map_append, List.map_cons] at h
    have hk : p.1 ∉ acc.map Prod.fst := fun hmem =>
      (List.nodup_append.mp h).2.2 hmem (List.mem_cons_self _ _)
    have hins : pyInsert acc p.1 p.2 = acc ++ [(p.1, p.2)] := by
      unfold pyInsert
      rw [if_neg]
      simp only [List.any_eq_true, decide_eq_true_eq, not_exists, not_and]
      intro q hq hq1
      exact hk (hq1 ▸ List.mem_map_of_mem Prod.fst hq)
    rw [List.foldl_cons, hins, ih (acc ++ [(p.1, p.2)]) (by
      simpa [List.map_append] using h)]
    simp

/-- `dict(pairs)` is the identity on pairs with pairwise-distinct keys. -/
theorem pyDictOfPairs_nodup (l : List (String × String))
    (h : (l.map Prod.fst).Nodup) : pyDictOfPairs l = l := by
  have e := foldl_pyInsert_nodup l [] (by simpa using h)
  simpa [pyDictOfPairs] using e

/-- C3: on empty stderr, `Window.split_window` returns a `Pane` built from the
first stdout line split on tabs, zipped positionally with
`['session_name', 'session_id', 'window_index', 'window_id'] ++ PANE_FORMATS`,
with every pair whose value is the empty string removed.  (Stated for any
duplicate-free `PANE_FORMATS`; the `formats` module is not under `src/`.) -/
theorem split_window_builds_pane (w : WindowState) (PANE_FORMATS : List String)
    (attach : Bool) (out : ProcOutput) (p0 : Pane) (ps : List Pane)
    (line : String) (rest : List String)
    (hpanes : (Window.list_panes w).2 = Except.ok (p0 :: ps))
    (hnd : (["session_name", "session_id", "window_index", "window_id"]
      ++ PANE_FORMATS).Nodup)
    (hout : out.stdout = line :: rest) (herr : out.stderr = []) :
    (Window.split_window w PANE_FORMATS attach out).2 =
      Except.ok ⟨(List.zip
        (["session_name", "session_id", "window_index", "window_id"] ++ PANE_FORMATS)
        (pySplit line '\t')).filter (fun kv => kv.2 != "")⟩ := by
  have hz := pyDictOfPairs_nodup
    (List.zip (["session_name", "session_id", "window_index", "window_id"] ++ PANE_FORMATS)
      (pySplit line '\t'))
    (List.Nodup.sublist (map_fst_zip_sublist _ _) hnd)
  simp only [Window.split_window, hpanes, hout, herr]
  simp only [List.cons_append, List.nil_append] at hz
  simp [hz]

/-- Witness for C3 on a concrete split output. -/
theorem split_window_builds_pane_w :
    (Window.split_window w0 ["pane_id"] true ⟨["s\t$1\t0\t@1\t%5\t"], []⟩).2 =
      Except.ok ⟨[("session_name", "s"), ("session_id", "$1"), ("window_index", "0"),
                  ("window_id", "@1"), ("pane_id", "%5")]⟩ := by
  have h := split_window_builds_pane w0 ["pane_id"] true ⟨["s\t$1\t0\t@1\t%5\t"], []⟩
    (Pane.mk paneRow0) [] "s\t$1\t0\t@1\t%5\t" [] rfl (by decide) rfl rfl
  rw [h]; rfl

/-- C2 counterexample: `rename_window` with non-empty subprocess stderr raises
nothing — it returns the window object normally. -/
theorem rename_window_ignores_stderr :
    (Window.rename_window w0 "x" ⟨[], ["boom"]⟩).2 = Except.ok w0 := rfl

/-- C2 amended: among the tmux-invoking operations only `set_window_option`,
`select_pane` and `split_window` raise on non-empty stderr (the exception
carrying that stderr); `select_layout` and `rename_window` return normally
regardless of stderr, and `show_window_options` / `show_window_option` ignore
stderr entirely (their result depends only on stdout). -/
theorem stderr_discipline (out : ProcOutput) (e0 : String) (erest : List String)
    (hE : out.stderr = e0 :: erest) :
    (∀ w option value wid, w.get "window_id" = some wid →
       (Window.set_window_option w option value out).2 =
         Except.error (PyErr.valueError
           ("tmux set-window-option stderr: " ++ fmtStderr out.stderr))) ∧
    (∀ w tp, (Window.select_pane w tp out).2 =
       Except.error (PyErr.exception out.stderr)) ∧
    (∀ w PF attach p ps, (Window.list_panes w).2 = Except.ok (p :: ps) →
       (Window.split_window w PF attach out).2 =
         Except.error (PyErr.exception out.stderr)) ∧
    (∀ w layout, (Window.select_layout w layout out).2 = Except.ok ()) ∧
    (∀ w nn, (Window.rename_window w nn out).2 = Except.ok w) ∧
    (∀ w o, Window.show_window_option w o out =
       Window.show_window_option w o ⟨out.stdout, []⟩) ∧
    (∀ w o, Window.show_window_options w o out =
       Window.show_window_options w o ⟨out.stdout, []⟩) := by
  refine ⟨?_, ?_, ?_, ?_, ?_, ?_, ?_⟩
  · intro w option value wid h
    simp [Window.set_window_option, WindowState.getitem, h, hE]
  · intro w tp
    simp [Window.select_pane, hE]
  · intro w PF attach p ps hpanes
    simp only [Window.split_window, hpanes, hE]
  · intro w layout; rfl
  · intro w nn; rfl
  · intro w o; rfl
  · intro w o; rfl

/-- Witness for the amended C2 at a concrete non-empty stderr. -/
theorem stderr_discipline_w :
    (Window.select_pane w0 "%0" ⟨[], ["boom"]⟩).2 =
      Except.error (PyErr.exception ["boom"]) ∧
    (Window.set_window_option w0 "o" (TmuxVal.str "v") ⟨[], ["boom"]⟩).2 =
      Except.error (PyErr.valueError "tmux set-window-option stderr: boom") := by
  have h := stderr_discipline ⟨[], ["boom"]⟩ "boom" [] rfl
  refine ⟨h.2.1 w0 "%0", ?_⟩
  have h2 := h.1 w0 "o" (TmuxVal.str "v") "@1" rfl
  rw [h2]; rfl

/-- C7 counterexample: `rename_window` performs two subprocess invocations
(the rename and the window-list refresh), not one. -/
theorem rename_window_spawns_twice :
    ¬ (Window.rename_window w0 "x" ⟨[], []⟩).1.length = 1 := by decide

/-- C7 amended: every public operation performs a fixed synchronous sequence
of subprocess invocations, but not always one: `select_layout`,
`set_window_option`, `show_window_options`, `show_window_option` and
`list_panes` perform exactly one; `rename_window` performs two; `select_pane`
performs two on empty stderr and one when it raises; `split_window` performs
two when the window has panes. -/
theorem invocation_counts :
    (∀ w layout out, (Window.select_layout w layout out).1.length = 1) ∧
    (∀ w o v out wid, w.get "window_id" = some wid →
       (Window.set_window_option w o v out).1.length = 1) ∧
    (∀ w (o : Option String) out,
       (Window.show_window_options w o out).1.length = 1) ∧
    (∀ w o out, (Window.show_window_option w o out).1.length = 1) ∧
    (∀ w n out, (Window.rename_window w n out).1.length = 2) ∧
    (∀ w, (Window.list_panes w).1.length = 1) ∧
    (∀ w t out, (Window.select_pane w t out).1.length =
       match out.stderr with | [] => 2 | _ :: _ => 1) ∧
    (∀ w PF attach out p ps, (Window.list_panes w).2 = Except.ok (p :: ps) →
       (Window.split_window w PF attach out).1.length = 2) := by
  refine ⟨?_, ?_, ?_, ?_, ?_, ?_, ?_, ?_⟩
  · intro w layout out; rfl
  · intro w o v out wid h
    cases hs : out.stderr <;>
      simp [Window.set_window_option, WindowState.getitem, h, hs]
  · intro w o out
    cases o with
    | none => rfl
    | some s =>
      by_cases hs : s.isEmpty <;>
        simp [Window.show_window_options, hs, Window.show_window_option]
  · intro w o out; rfl
  · intro w n out; rfl
  · intro w; rfl
  · intro w t out
    cases hs : out.stderr <;>
      simp [Window.select_pane, hs, Window.attached_pane, Window.listPanesRows]
  · intro w PF attach out p ps hpanes
    simp only [Window.split_window, hpanes]
    cases hs : out.stderr <;> cases hd : out.stdout <;>
      simp [Window.list_panes, Window.listPanesRows]

/-- Witness for the amended C7 at concrete calls. -/
theorem invocation_counts_w :
    (Window.set_window_option w0 "o" (TmuxVal.str "v") ⟨[], []⟩).1.length = 1 ∧
    (Window.rename_window w0 "x" ⟨[], []⟩).1.length = 2 ∧
    (Window.split_window w0 ["pane_id"] true ⟨["l"], []⟩).1.length = 2 := by
  refine ⟨invocation_counts.2.1 w0 "o" (TmuxVal.str "v") ⟨[], []⟩ "@1" rfl,
          invocation_counts.2.2.2.2.1 w0 "x" ⟨[], []⟩,
          invocation_counts.2.2.2.2.2.2.2 w0 ["pane_id"] true ⟨["l"], []⟩
            (Pane.mk paneRow0) [] rfl⟩

end Tmuxp
